import Mathlib

/-! VXE Dragonfly R1 Pro Max battery driver (`module/hid-vxe-r1.c`)

A shallow embedding of the HID driver and a verification of its specification.

The driver's callbacks are C functions that work on kernel objects through
pointers.  They are embedded as functions on an explicit `Kernel` state:

* the `hid_device` the driver is bound to (interface number, parsed output
  reports, driver data pointer, hardware session);
* the `kzalloc` heap holding the `vxe_mouse` objects (`some` = live,
  `none` = freed);
* the device-managed resources (`devm_*`) of the device;
* the power-supply registry;
* the requests handed to the transport by `hid_hw_request`;
* the sequence of resource calls made so far.

A callback that dereferences a NULL or freed pointer returns a `Fault`.
C `int` arithmetic is `Int` arithmetic wrapped to 32 bits (`wrap32`).
Time is counted in milliseconds (`jiffies` with `HZ = 1000`, for which
`msecs_to_jiffies` is the identity); `jiffies` and timer expiries are
`unsigned long` values of 64 bits, so sums of them wrap modulo `2^64` (`ULONG`)
and are compared with `time_after_eq`.
-/

namespace VxeR1

/-! ## Constants -/

/-- The interface number polled for battery status: `#define TARGET_INTERFACE 1`. -/
def TARGET_INTERFACE : Nat := 1

/-- The polling interval in milliseconds: `#define BATTERY_POLL_INTERVAL_MS 5000`. -/
def BATTERY_POLL_INTERVAL_MS : Nat := 5000

/-- The report id of the battery request and reply: `#define REPORT_ID 0x08`. -/
def REPORT_ID : Nat := 0x08

/-- Kernel errno `EINVAL`. -/
def EINVAL : Int := 22

/-- Kernel errno `ENOMEM`. -/
def ENOMEM : Int := 12

/-- Kernel enum value `POWER_SUPPLY_STATUS_UNKNOWN`. -/
def POWER_SUPPLY_STATUS_UNKNOWN : Int := 0

/-- Kernel enum value `POWER_SUPPLY_STATUS_CHARGING`. -/
def POWER_SUPPLY_STATUS_CHARGING : Int := 1

/-- Kernel enum value `POWER_SUPPLY_STATUS_DISCHARGING`. -/
def POWER_SUPPLY_STATUS_DISCHARGING : Int := 2

/-- Kernel enum value `POWER_SUPPLY_SCOPE_DEVICE`. -/
def POWER_SUPPLY_SCOPE_DEVICE : Int := 2

/-- Kernel constant `HID_REQ_SET_REPORT`. -/
def HID_REQ_SET_REPORT : Nat := 0x09

/-- Time in milliseconds: `msecs_to_jiffies` for `HZ = 1000`. -/
def msecs_to_jiffies (m : Nat) : Nat := m

/-- A value of type `unsigned long` (64 bits): the number modulo `2^64`.  The
counter `jiffies` and the expiry of a timer are of this type, and sums of them
wrap around. -/
def ULONG (x : Nat) : Nat := x % 18446744073709551616

/-- The kernel macro `time_after_eq(a, b)`, `(long)((a) - (b)) >= 0`: in
wrapping time, `a` is at or after `b`. -/
def time_after_eq (a b : Nat) : Bool :=
  decide (ULONG (ULONG a + 18446744073709551616 - ULONG b) < 9223372036854775808)

/-- A C `int` result: the mathematical value wrapped to 32-bit two's complement. -/
def wrap32 (x : Int) : Int := (x + 2147483648) % 4294967296 - 2147483648

/-! ## Data model -/

/-- A byte of a raw frame (`u8`). -/
abbrev u8 := Fin 256

/-- An address in the `kzalloc` heap. -/
abbrev Ptr := Nat

/-- The ways a callback can crash the kernel. -/
inductive Fault where
  | null_deref
  | use_after_free
  | out_of_bounds
  deriving DecidableEq

/-- The part of `struct timer_list` the driver relies on: whether the timer is
armed, and for when. -/
structure timer_list where
  pending : Bool
  expires : Nat
  deriving DecidableEq

/-- The part of `struct work_struct` (and of the workqueue serving it) the
driver relies on: how many invocations of the work are queued and not yet
started, and how many are executing. -/
structure work_struct where
  queued : Nat
  running : Nat
  deriving DecidableEq

/-- The driver's `struct vxe_mouse`.  The `hdev` back pointer is left out: the
model has one `hid_device`.  `power_supply` is the value returned by
`devm_power_supply_register`: the name of the registry entry. -/
structure vxe_mouse where
  battery_poll_timer : timer_list
  battery_request_work : work_struct
  psy_name : String
  power_supply : Option String
  battery_capacity : Int
  battery_status : Int
  battery_voltage : Int
  deriving DecidableEq

/-- What `kzalloc(sizeof(struct vxe_mouse))` returns: all fields zero. -/
def vxe_mouse.zeroed : vxe_mouse :=
  { battery_poll_timer := { pending := false, expires := 0 }
    battery_request_work := { queued := 0, running := 0 }
    psy_name := ""
    power_supply := none
    battery_capacity := 0
    battery_status := 0
    battery_voltage := 0 }

/-- A `struct hid_field`: `report_count` and the `value` array. -/
structure hid_field where
  report_count : Nat
  value : List Int
  deriving DecidableEq

/-- A `struct hid_report`: its id and its fields `field[0 .. maxfield)`. -/
structure hid_report where
  id : Nat
  field : List hid_field
  deriving DecidableEq

/-- A request handed to the transport by `hid_hw_request`: the report as it is
at that moment, and the request type. -/
structure hw_request where
  report : hid_report
  reqtype : Nat
  deriving DecidableEq

/-- The `struct hid_device` the callbacks receive: the USB interface number
(`intf->cur_altsetting->desc.bInterfaceNumber`), the unique id string, the
output report list (`report_enum[HID_OUTPUT_REPORT].report_list`), the driver
data pointer and whether the hardware session is started. -/
structure hid_device where
  bInterfaceNumber : Nat
  uniq : String
  report_list : List hid_report
  driver_data : Option Ptr
  hw_started : Bool
  deriving DecidableEq

/-- The tags of `enum power_supply_property`: the eight the driver announces
in `vxe_power_supply_props`, and every other tag of the kernel's enumeration,
told apart by its number. -/
inductive power_supply_property where
  | STATUS
  | CAPACITY
  | CAPACITY_LEVEL
  | VOLTAGE_NOW
  | SCOPE
  | MODEL_NAME
  | MANUFACTURER
  | SERIAL_NUMBER
  | OTHER (code : Nat)
  deriving DecidableEq

/-- The `union power_supply_propval` the query callback writes into. -/
inductive power_supply_propval where
  | intval (v : Int)
  | strval (s : String)
  deriving DecidableEq

/-- An entry of the power-supply registry: the descriptor's name and property
list, and the `drv_data` pointer given at registration. -/
structure power_supply where
  name : String
  properties : List power_supply_property
  drv_data : Option Ptr
  deriving DecidableEq

/-- A device-managed resource, released by the driver core after the driver is
unbound or after its probe failed. -/
inductive devres where
  | desc
  | psy (name : String)
  deriving DecidableEq

/-- The resource calls the model records, in the order they are made. -/
inductive Call where
  | hid_hw_start
  | hid_hw_stop
  | kzalloc (p : Ptr)
  | kfree (p : Ptr)
  | devm_kzalloc
  | power_supply_register (name : String)
  | power_supply_unregister (name : String)
  | del_timer_sync
  | cancel_work_sync
  deriving DecidableEq

/-- The kernel state the driver's callbacks act on. -/
structure Kernel where
  hdev : hid_device
  heap : List (Option vxe_mouse)
  devres : List devres
  registry : List power_supply
  requests : List hw_request
  calls : List Call
  deriving DecidableEq

/-- Dereference a `struct vxe_mouse *`. -/
def Kernel.load (k : Kernel) (p : Option Ptr) : Except Fault vxe_mouse :=
  match p with
  | none => .error .null_deref
  | some a =>
    match k.heap[a]? with
    | some (some m) => .ok m
    | _ => .error .use_after_free

/-- Write a `struct vxe_mouse` back to its address. -/
def Kernel.store (k : Kernel) (a : Ptr) (m : vxe_mouse) : Kernel :=
  { k with heap := k.heap.set a (some m) }

/-! ## Event Ingestor -/

/-- The function `vxe_raw_event(hdev, report, data, size)`, with `size` the
length of `data`.  Returns the C return value and the new state. -/
def vxe_raw_event (k : Kernel) (data : List u8) : Except Fault (Int × Kernel) :=
  let size := data.length
  -- Detect battery information packet
  if size = 17 ∧ data.getD 0 0 = 0x08 ∧ data.getD 1 0 = 0x04 then
    match k.hdev.driver_data with
    | none => .error .null_deref
    | some a =>
      match k.load (some a) with
      | .error e => .error e
      | .ok vxe_dev =>
        let batteryCharge : Int := ((data.getD 7 0).val : Int)
        let voltage : Int := (((data.getD 8 0).val <<< 8 ||| (data.getD 9 0).val : Nat) : Int)
        .ok (0, k.store a
          { vxe_dev with
            battery_capacity := ((data.getD 6 0).val : Int)
            battery_status :=
              if batteryCharge = 0x01 then POWER_SUPPLY_STATUS_CHARGING
              else POWER_SUPPLY_STATUS_DISCHARGING
            battery_voltage := voltage })
  else
    .ok (0, k)

/-! ## Status Publisher -/

/-- The array `vxe_power_supply_props`. -/
def vxe_power_supply_props : List power_supply_property :=
  [ .STATUS, .CAPACITY, .CAPACITY_LEVEL, .VOLTAGE_NOW,
    .SCOPE, .MODEL_NAME, .MANUFACTURER, .SERIAL_NUMBER ]

/-- The function `vxe_power_supply_get_property(psy, psp, val)`.  Returns the C
return value, the contents of `*val` after the call and the state after the
call.  `power_supply_get_drvdata(psy)` is the entry's `drv_data`. -/
def vxe_power_supply_get_property (k : Kernel) (psy : power_supply)
    (psp : power_supply_property) (val : power_supply_propval) :
    Except Fault (Int × power_supply_propval × Kernel) :=
  match psy.drv_data with
  | none => .ok (-EINVAL, val, k)
  | some a =>
    match psp with
    | .STATUS =>
      match k.load (some a) with
      | .error e => .error e
      | .ok vxe_dev => .ok (0, .intval vxe_dev.battery_status, k)
    | .CAPACITY =>
      match k.load (some a) with
      | .error e => .error e
      | .ok vxe_dev => .ok (0, .intval vxe_dev.battery_capacity, k)
    | .CAPACITY_LEVEL =>
      match k.load (some a) with
      | .error e => .error e
      | .ok vxe_dev => .ok (0, .intval vxe_dev.battery_capacity, k)
    | .VOLTAGE_NOW =>
      match k.load (some a) with
      | .error e => .error e
      -- Convert mV to uV
      | .ok vxe_dev => .ok (0, .intval (wrap32 (vxe_dev.battery_voltage * 1000)), k)
    | .SCOPE => .ok (0, .intval POWER_SUPPLY_SCOPE_DEVICE, k)
    | .MODEL_NAME => .ok (0, .strval "VXE Dragonfly R1 Pro Max Mouse", k)
    | .MANUFACTURER => .ok (0, .strval "VXE", k)
    | .SERIAL_NUMBER =>
      match k.load (some a) with
      | .error e => .error e
      | .ok _ => .ok (0, .strval k.hdev.uniq, k)
    | .OTHER _ => .ok (-EINVAL, val, k)

/-! ## Request Dispatcher -/

/-- The kernel call `hid_hw_request(hdev, report, reqtype)`: the transport
takes the report as it is at the call. -/
def hid_hw_request (k : Kernel) (report : hid_report) (reqtype : Nat) : Kernel :=
  { k with requests := k.requests ++ [{ report := report, reqtype := reqtype }] }

/-- The function `vxe_battery_work_handler(work)`; `work` is the address of the
`vxe_mouse` that contains the work item (`container_of`). -/
def vxe_battery_work_handler (k : Kernel) (work : Ptr) : Except Fault Kernel :=
  match k.load (some work) with
  | .error e => .error e
  | .ok _ =>
    match k.hdev.report_list with
    -- no output reports found
    | [] => .ok k
    | report :: rest =>
      -- invalid report id
      if report.id ≠ REPORT_ID then .ok k
      else
        match report.field with
        | [] => .error .null_deref
        | field0 :: fields =>
          -- not enough values in the field
          if field0.report_count < 16 then .ok k
          else if field0.value.length ≤ 15 then .error .out_of_bounds
          else
            let field0 := { field0 with value := (field0.value.set 0 0x04).set 15 0x49 }
            let report := { report with field := field0 :: fields }
            let k := { k with hdev := { k.hdev with report_list := report :: rest } }
            .ok (hid_hw_request k report HID_REQ_SET_REPORT)

/-! ## Poll Scheduler -/

/-- The kernel call `schedule_work(work)`: queues the work unless it is already
queued (pending), and tells whether it queued it. -/
def schedule_work (w : work_struct) : work_struct × Bool :=
  if w.queued = 0 then ({ w with queued := w.queued + 1 }, true) else (w, false)

/-- The kernel call `mod_timer(timer, expires)`: (re)arms the timer. -/
def mod_timer (_t : timer_list) (expires : Nat) : timer_list :=
  { pending := true, expires := expires }

/-- The function `vxe_request_battery_status(t)`, called at time `jiffies`; `t`
is the address of the `vxe_mouse` that contains the timer (`from_timer`). -/
def vxe_request_battery_status (k : Kernel) (t : Ptr) (jiffies : Nat) : Except Fault Kernel :=
  match k.load (some t) with
  | .error e => .error e
  | .ok vxe_dev =>
    -- Schedule the work item to run the actual HID request in a process context
    let work := (schedule_work vxe_dev.battery_request_work).1
    -- Reschedule the timer to run again after BATTERY_POLL_INTERVAL_MS
    let timer := mod_timer vxe_dev.battery_poll_timer
      (ULONG (jiffies + msecs_to_jiffies BATTERY_POLL_INTERVAL_MS))
    .ok (k.store t { vxe_dev with battery_request_work := work, battery_poll_timer := timer })

/-! ## Bind and unbind -/

/-- A `struct hid_device_id` (USB vendor and product). -/
structure hid_device_id where
  vendor : Nat
  product : Nat
  deriving DecidableEq

/-- The table `vxe_devices`: wireless dongle and wired. -/
def vxe_devices : List hid_device_id :=
  [ { vendor := 0x3554, product := 0xf58a }, { vendor := 0x3554, product := 0xf58c } ]

/-- The outcomes of the kernel calls of `vxe_probe` that can fail: the return
values of `hid_parse` and `hid_hw_start`, whether `kzalloc` and `devm_kzalloc`
return memory, and the pointer value returned by `devm_power_supply_register`
(an error pointer when it lies in `[-4095, -1]`). -/
structure Env where
  hid_parse : Int
  hid_hw_start : Int
  kzalloc : Bool
  devm_kzalloc : Bool
  devm_power_supply_register : Int
  deriving DecidableEq

/-- The kernel macro `IS_ERR`. -/
def IS_ERR (ptr : Int) : Bool := decide (-4095 ≤ ptr ∧ ptr < 0)

/-- The format `"%04x"`. -/
def hex04 (n : Nat) : String :=
  let ds := Nat.toDigits 16 n
  String.mk (List.replicate (4 - ds.length) '0' ++ ds)

/-- The call `snprintf(psy_name, 32, "vxe_%04x_%04x_bat_%d", vendor, product, ifnum)`. -/
def psy_name_fmt (id : hid_device_id) (ifnum : Nat) : String :=
  String.mk (("vxe_" ++ hex04 id.vendor ++ "_" ++ hex04 id.product ++ "_bat_"
    ++ String.mk (Nat.toDigits 10 ifnum)).toList.take 31)

/-- The kernel call `hid_hw_stop(hdev)`. -/
def hid_hw_stop (k : Kernel) : Kernel :=
  { k with hdev := { k.hdev with hw_started := false }, calls := k.calls ++ [Call.hid_hw_stop] }

/-- The kernel call `hid_set_drvdata(hdev, data)`. -/
def hid_set_drvdata (k : Kernel) (data : Option Ptr) : Kernel :=
  { k with hdev := { k.hdev with driver_data := data } }

/-- The kernel call `kfree(p)` on a live object. -/
def kfree (k : Kernel) (p : Ptr) : Kernel :=
  { k with heap := k.heap.set p none, calls := k.calls ++ [Call.kfree p] }

/-- The function `vxe_probe(hdev, id)`, called at time `jiffies` with the
outcomes `env` of the calls that can fail.  Returns the C return value and the
state after the call. -/
def vxe_probe (k : Kernel) (id : hid_device_id) (env : Env) (jiffies : Nat) : Int × Kernel :=
  -- Get the current USB interface number
  let ifnum := k.hdev.bInterfaceNumber
  -- Parse the HID descriptor
  let ret := env.hid_parse
  if ret ≠ 0 then (ret, k)
  else
    -- Start the HID hardware for I/O operations
    let ret := env.hid_hw_start
    if ret ≠ 0 then (ret, k)
    else
      let k := { k with hdev := { k.hdev with hw_started := true },
                        calls := k.calls ++ [Call.hid_hw_start] }
      -- Only set up battery polling on the specific interface we care about
      if ifnum = TARGET_INTERFACE then
        -- Allocate memory for custom device structure
        if ¬ env.kzalloc then (-ENOMEM, hid_hw_stop k)
        else
          let p : Ptr := k.heap.length
          let k := { k with heap := k.heap ++ [some vxe_mouse.zeroed],
                            calls := k.calls ++ [Call.kzalloc p] }
          -- Associate custom data with the HID device
          let k := hid_set_drvdata k (some p)
          let vxe_dev := { vxe_mouse.zeroed with psy_name := psy_name_fmt id ifnum }
          let k := k.store p vxe_dev
          -- Initialize the power supply description structure dynamically
          if ¬ env.devm_kzalloc then (-ENOMEM, hid_hw_stop k)
          else
            let k := { k with devres := k.devres ++ [devres.desc],
                              calls := k.calls ++ [Call.devm_kzalloc] }
            if IS_ERR env.devm_power_supply_register then
              let ret := env.devm_power_supply_register
              let k := kfree k p
              (ret, hid_hw_stop k)
            else
              let psy : power_supply :=
                { name := vxe_dev.psy_name
                  properties := vxe_power_supply_props
                  drv_data := some p }
              let k := { k with registry := k.registry ++ [psy],
                                devres := k.devres ++ [devres.psy psy.name],
                                calls := k.calls ++ [Call.power_supply_register psy.name] }
              let vxe_dev :=
                { vxe_dev with
                  power_supply := some psy.name
                  -- Initialize battery status fields with an unknown state
                  battery_capacity := -1
                  battery_status := POWER_SUPPLY_STATUS_UNKNOWN
                  battery_voltage := 0
                  -- INIT_WORK, timer_setup
                  battery_request_work := { queued := 0, running := 0 }
                  battery_poll_timer := { pending := false, expires := 0 } }
              -- Start the timer immediately to get the first battery status
              let vxe_dev :=
                { vxe_dev with
                  battery_poll_timer :=
                    mod_timer vxe_dev.battery_poll_timer
                      (ULONG (jiffies + msecs_to_jiffies 100)) }
              (0, k.store p vxe_dev)
      else
        -- Return 0 to indicate a successful probe
        (0, k)

/-- The kernel call `del_timer_sync(&vxe_dev->battery_poll_timer)`. -/
def del_timer_sync (k : Kernel) (a : Ptr) : Except Fault Kernel :=
  match k.load (some a) with
  | .error e => .error e
  | .ok m =>
    .ok { k.store a { m with battery_poll_timer := { m.battery_poll_timer with pending := false } }
          with calls := k.calls ++ [Call.del_timer_sync] }

/-- The kernel call `cancel_work_sync(&vxe_dev->battery_request_work)`: a queued
invocation is dropped, and an executing one runs to its end first. -/
def cancel_work_sync (k : Kernel) (a : Ptr) : Except Fault Kernel :=
  match k.load (some a) with
  | .error e => .error e
  | .ok m =>
    let finished : Except Fault Kernel :=
      if m.battery_request_work.running = 0 then .ok k else vxe_battery_work_handler k a
    match finished with
    | .error e => .error e
    | .ok k1 =>
      .ok { k1.store a { m with battery_request_work := { queued := 0, running := 0 } }
            with calls := k1.calls ++ [Call.cancel_work_sync] }

/-- The function `vxe_remove(hdev)`. -/
def vxe_remove (k : Kernel) : Except Fault Kernel :=
  -- Stop new work/timers and wait for existing work to finish
  let vxe_dev := k.hdev.driver_data
  let quiesced : Except Fault Kernel :=
    match vxe_dev with
    | none => .ok k
    | some a =>
      -- Delete the timer if it was active
      match del_timer_sync k a with
      | .error e => .error e
      -- Cancel any pending workqueue items and wait for them to complete
      | .ok k => cancel_work_sync k a
  match quiesced with
  | .error e => .error e
  | .ok k =>
    -- Stop the HID hardware operations
    let k := hid_hw_stop k
    -- Free custom data and clear the driver data
    match vxe_dev with
    | none => .ok k
    | some a => .ok (hid_set_drvdata (kfree k a) none)

/-- What the driver core does with the device-managed resources of the device
once `vxe_remove` has returned, or once `vxe_probe` has failed: it releases
them, last one first.  Releasing a registered power supply unregisters it. -/
def devres_release_all (k : Kernel) : Kernel :=
  k.devres.reverse.foldl
    (fun k r =>
      match r with
      | .desc => k
      | .psy name =>
        { k with registry := k.registry.filter (fun psy => psy.name ≠ name),
                 calls := k.calls ++ [Call.power_supply_unregister name] })
    { k with devres := [] }

/-- Unbinding as the bus runs it: the driver's `remove` callback, then the
release of the device-managed resources. -/
def hid_device_remove (k : Kernel) : Except Fault Kernel :=
  match vxe_remove k with
  | .error e => .error e
  | .ok k => .ok (devres_release_all k)

/-- Binding as the bus runs it: the driver's `probe` callback; when it fails,
the device-managed resources are released and the driver data pointer is
cleared. -/
def hid_device_probe (k : Kernel) (id : hid_device_id) (env : Env) (jiffies : Nat) :
    Int × Kernel :=
  match vxe_probe k id env jiffies with
  | (ret, k) =>
    if ret ≠ 0 then (ret, hid_set_drvdata (devres_release_all k) none) else (ret, k)

/-! ## The timer and the deferred work as a transition system -/

/-- What the kernel can do with the poll timer and the work item of the bound
device: let the timer expire at time `now`, let a worker take the queued work,
let the worker finish it. -/
inductive Event where
  | timer_fire (now : Nat)
  | work_start
  | work_complete
  deriving DecidableEq

/-- One step of the transition system; `none` when the event is not possible in
the state (or crashes the kernel).

* `timer_fire now`: the timer is armed and due (`time_after_eq now expires`);
  the timer core disarms it and
  calls `vxe_request_battery_status`.
* `work_start`: an invocation is queued and none is executing (a work item is
  never run by two workers at once); it leaves the queue and executes.
* `work_complete`: the executing invocation runs `vxe_battery_work_handler` and
  ends. -/
def step (k : Kernel) (e : Event) : Option Kernel :=
  match k.hdev.driver_data with
  | none => none
  | some a =>
    match k.load (some a) with
    | .error _ => none
    | .ok m =>
      match e with
      | .timer_fire now =>
        if m.battery_poll_timer.pending = true
            ∧ time_after_eq now m.battery_poll_timer.expires = true then
          let k := k.store a
            { m with battery_poll_timer := { m.battery_poll_timer with pending := false } }
          match vxe_request_battery_status k a now with
          | .error _ => none
          | .ok k => some k
        else none
      | .work_start =>
        if m.battery_request_work.queued ≠ 0 ∧ m.battery_request_work.running = 0 then
          some (k.store a
            { m with battery_request_work :=
                { queued := m.battery_request_work.queued - 1
                  running := m.battery_request_work.running + 1 } })
        else none
      | .work_complete =>
        if m.battery_request_work.running ≠ 0 then
          match vxe_battery_work_handler k a with
          | .error _ => none
          | .ok k =>
            some (k.store a
              { m with battery_request_work :=
                  { m.battery_request_work with
                    running := m.battery_request_work.running - 1 } })
        else none

/-- Run a sequence of events. -/
def run (k : Kernel) : List Event → Option Kernel
  | [] => some k
  | e :: es =>
    match step k e with
    | none => none
    | some k => run k es

/-! ## Frame delivery -/

/-- The transport delivers the frames one after the other to `vxe_raw_event`. -/
def ingest (k : Kernel) : List (List u8) → Except Fault Kernel
  | [] => .ok k
  | data :: frames =>
    match vxe_raw_event k data with
    | .error e => .error e
    | .ok (_, k) => ingest k frames

/-- The states the transition system reaches from `k0`. -/
def Reachable (k0 k : Kernel) : Prop := ∃ es, run k0 es = some k

/-- The Device State at `a` is the device's driver data, is live, and its work
item has at most one invocation queued and at most one executing. -/
def WorkInv (a : Ptr) (k : Kernel) : Prop :=
  k.hdev.driver_data = some a ∧
    ∃ m, k.load (some a) = .ok m ∧
      m.battery_request_work.queued ≤ 1 ∧ m.battery_request_work.running ≤ 1

/-! ## Sample states -/

/-- An output report with id `0x08` whose single field holds 16 zero values. -/
def sample_report : hid_report :=
  { id := 0x08, field := [{ report_count := 16, value := List.replicate 16 0 }] }

/-- The telemetry interface of the wireless dongle, not yet bound. -/
def sample_kernel : Kernel :=
  { hdev :=
      { bInterfaceNumber := 1
        uniq := "VXE-0001"
        report_list := [sample_report]
        driver_data := none
        hw_started := false }
    heap := []
    devres := []
    registry := []
    requests := []
    calls := [] }

/-- Every fallible call of `vxe_probe` succeeds. -/
def env_ok : Env :=
  { hid_parse := 0, hid_hw_start := 0, kzalloc := true, devm_kzalloc := true,
    devm_power_supply_register := 1 }

/-- The wireless dongle's entry of `vxe_devices`. -/
def dongle : hid_device_id := { vendor := 0x3554, product := 0xf58a }

/-- The state after binding `sample_kernel` at time 0. -/
def sample_bound : Kernel := (vxe_probe sample_kernel dongle env_ok 0).2

/-- The end-to-end telemetry frame `08 04 00 00 00 00 32 01 0B B8 00 ..`. -/
def sample_frame : List u8 :=
  [0x08, 0x04, 0, 0, 0, 0, 0x32, 0x01, 0x0B, 0xB8, 0, 0, 0, 0, 0, 0, 0]

/-- A 17-byte frame with a wrong second byte, `08 05 ..`. -/
def sample_other_frame : List u8 :=
  [0x08, 0x05, 0, 0, 0, 0, 0x32, 0x01, 0x0B, 0xB8, 0, 0, 0, 0, 0, 0, 0]

/-- The Device State `vxe_probe` leaves for `sample_bound`. -/
def sample_state : vxe_mouse :=
  { battery_poll_timer := { pending := true, expires := 100 }
    battery_request_work := { queued := 0, running := 0 }
    psy_name := "vxe_3554_f58a_bat_1"
    power_supply := some "vxe_3554_f58a_bat_1"
    battery_capacity := -1
    battery_status := 0
    battery_voltage := 0 }

/-- The sample device after it has ingested `sample_frame`. -/
def sample_telemetry : Kernel :=
  sample_bound.store 0
    { sample_state with battery_capacity := 50, battery_status := 1, battery_voltage := 3000 }

/-- The output report of `sample_report` after some other user of the report
(the kernel keeps one value array per field) has left 7 in value 1. -/
def stale_report : hid_report :=
  { id := 0x08
    field := [{ report_count := 16, value := [0, 7, 0, 0, 0, 0, 0, 0, 0, 0, 0, 0, 0, 0, 0, 0] }] }

/-- The bound sample device with `stale_report` as its output report. -/
def stale_bound : Kernel :=
  { sample_bound with hdev := { sample_bound.hdev with report_list := [stale_report] } }

/-- An output report with id `0x08` and no field (`maxfield = 0`, every
`field[i]` NULL). -/
def fieldless_report : hid_report := { id := 0x08, field := [] }

/-- The bound sample device with `fieldless_report` as its output report. -/
def fieldless_bound : Kernel :=
  { sample_bound with hdev := { sample_bound.hdev with report_list := [fieldless_report] } }

/-- The bound sample device with no output report. -/
def bare_bound : Kernel :=
  { sample_bound with hdev := { sample_bound.hdev with report_list := [] } }

/-- The payload of the battery-status request: `04 00 .. 00 49`. -/
def battery_request_payload : List Int :=
  [0x04, 0, 0, 0, 0, 0, 0, 0, 0, 0, 0, 0, 0, 0, 0, 0x49]

/-- The first 16 values of the first field of each submitted request. -/
def submitted_payloads (k : Kernel) : List (List Int) :=
  k.requests.map (fun r => (r.report.field.headD { report_count := 0, value := [] }).value.take 16)

/-- Interface 0 of the wireless dongle (not the telemetry interface), not yet
bound. -/
def sample_other_interface : Kernel :=
  { sample_kernel with hdev := { sample_kernel.hdev with bInterfaceNumber := 0 } }

/-- The registry entry `vxe_probe` creates for `sample_bound`. -/
def sample_psy : power_supply :=
  { name := "vxe_3554_f58a_bat_1", properties := vxe_power_supply_props, drv_data := some 0 }

end VxeR1

/-! # Verification -/

namespace VxeR1

/-! ## Memory -/

theorem load_store (k : Kernel) (a : Ptr) (m m' : vxe_mouse)
    (h : k.load (some a) = .ok m) : (k.store a m').load (some a) = .ok m' := by
  unfold Kernel.load at h
  split at h
  · cases h
  · rename_i b hb
    cases hb
    have hlt : a < k.heap.length := by
      rcases Nat.lt_or_ge a k.heap.length with hlt | hge
      · exact hlt
      · rw [List.getElem?_eq_none hge] at h
        simp at h
    simp [Kernel.load, Kernel.store, List.getElem?_set_self, hlt]

theorem load_heap (k : Kernel) (a : Ptr) (m : vxe_mouse)
    (h : k.load (some a) = .ok m) : k.heap[a]? = some (some m) := by
  unfold Kernel.load at h
  split at h
  · cases h
  · rename_i b hb
    cases hb
    split at h
    · rename_i m0 hm0
      cases h
      exact hm0
    · cases h

theorem store_self (k : Kernel) (a : Ptr) (m : vxe_mouse)
    (h : k.load (some a) = .ok m) : k.store a m = k := by
  have hh := load_heap k a m h
  have hlt : a < k.heap.length := by
    rcases Nat.lt_or_ge a k.heap.length with hlt | hge
    · exact hlt
    · rw [List.getElem?_eq_none hge] at hh
      cases hh
  have : k.heap.set a (some m) = k.heap := by
    apply List.ext_getElem?
    intro i
    by_cases hi : a = i
    · subst hi
      simp [List.getElem?_set_self, hlt, hh]
    · simp [List.getElem?_set_ne hi]
  cases k
  simp only [Kernel.store] at *
  simp [this]

theorem shl8_or (hi lo : u8) : (hi.val <<< 8 ||| lo.val) = hi.val * 256 + lo.val := by
  have hlo : lo.val < 2 ^ 8 := lo.isLt
  rw [Nat.shiftLeft_eq, Nat.mul_comm, ← Nat.mul_add_lt_is_or hlo hi.val]

/-! ## Event Ingestor -/

/-- C1: a 17-byte frame that starts `08 04`, handled by `vxe_raw_event` on a
device with a Device State, returns 0 and leaves capacity = frame[6],
voltage = frame[8]*256 + frame[9], and status charging exactly when
frame[7] = 0x01 (discharging otherwise). -/
theorem vxe_raw_event_decodes (k : Kernel) (a : Ptr) (m : vxe_mouse) (data : List u8)
    (hsize : data.length = 17) (h0 : data.getD 0 0 = 0x08) (h1 : data.getD 1 0 = 0x04)
    (hdrv : k.hdev.driver_data = some a) (hlive : k.load (some a) = .ok m) :
    ∃ k' m', vxe_raw_event k data = .ok (0, k') ∧ k'.load (some a) = .ok m' ∧
      m'.battery_capacity = ((data.getD 6 0).val : Int) ∧
      m'.battery_voltage = ((data.getD 8 0).val : Int) * 256 + ((data.getD 9 0).val : Int) ∧
      (m'.battery_status = POWER_SUPPLY_STATUS_CHARGING ↔ data.getD 7 0 = 0x01) ∧
      (data.getD 7 0 ≠ 0x01 → m'.battery_status = POWER_SUPPLY_STATUS_DISCHARGING) := by
  have hv := shl8_or (data.getD 8 0) (data.getD 9 0)
  have h7 : (((data.getD 7 0).val : Int) = 1) ↔ data.getD 7 0 = 1 := by
    constructor
    · intro h
      apply Fin.ext
      have : (data.getD 7 0).val = 1 := by exact_mod_cast h
      simpa using this
    · intro h
      rw [h]
      rfl
  refine ⟨k.store a
    { m with
      battery_capacity := ((data.getD 6 0).val : Int)
      battery_status :=
        if ((data.getD 7 0).val : Int) = 0x01 then POWER_SUPPLY_STATUS_CHARGING
        else POWER_SUPPLY_STATUS_DISCHARGING
      battery_voltage := (((data.getD 8 0).val <<< 8 ||| (data.getD 9 0).val : Nat) : Int) },
    _, ?_, load_store k a m _ hlive, ?_, ?_, ?_, ?_⟩
  · simp only [vxe_raw_event, hsize, h0, h1, hdrv, hlive]
    simp
  · rfl
  · show (((data.getD 8 0).val <<< 8 ||| (data.getD 9 0).val : Nat) : Int) = _
    rw [hv]
    push_cast
    ring
  · show (if ((data.getD 7 0).val : Int) = 1 then POWER_SUPPLY_STATUS_CHARGING
      else POWER_SUPPLY_STATUS_DISCHARGING) = POWER_SUPPLY_STATUS_CHARGING ↔ _
    by_cases h : data.getD 7 0 = 1
    · rw [if_pos (h7.mpr h)]
      exact ⟨fun _ => h, fun _ => rfl⟩
    · have hne : ¬ (((data.getD 7 0).val : Int) = 1) := fun hh => h (h7.mp hh)
      rw [if_neg hne]
      exact ⟨fun hh => absurd hh (by decide), fun hh => absurd hh h⟩
  · intro h
    have hne : ¬ (((data.getD 7 0).val : Int) = 1) := fun hh => h (h7.mp hh)
    show (if ((data.getD 7 0).val : Int) = 1 then POWER_SUPPLY_STATUS_CHARGING
      else POWER_SUPPLY_STATUS_DISCHARGING) = _
    rw [if_neg hne]

theorem sample_bound_load : sample_bound.load (some 0) = .ok sample_state := by
  rfl

/-- Witness for C1: the frame `08 04 00 00 00 00 32 01 0B B8 00 ..` on the
freshly bound sample device gives capacity 50, 3000 mV and charging. -/
theorem vxe_raw_event_decodes_witness :
    ∃ k' m', vxe_raw_event sample_bound sample_frame = .ok (0, k') ∧
      k'.load (some 0) = .ok m' ∧
      m'.battery_capacity = 50 ∧
      m'.battery_voltage = 3000 ∧
      (m'.battery_status = POWER_SUPPLY_STATUS_CHARGING ↔ sample_frame.getD 7 0 = 0x01) ∧
      (sample_frame.getD 7 0 ≠ 0x01 → m'.battery_status = POWER_SUPPLY_STATUS_DISCHARGING) :=
  vxe_raw_event_decodes sample_bound 0 sample_state sample_frame
    (by decide) (by decide) (by decide) rfl sample_bound_load

theorem raw_event_nomatch (k : Kernel) (data : List u8)
    (h : data.length ≠ 17 ∨ data.getD 0 0 ≠ 0x08 ∨ data.getD 1 0 ≠ 0x04) :
    vxe_raw_event k data = .ok (0, k) := by
  have hn : ¬ (data.length = 17 ∧ data.getD 0 0 = 0x08 ∧ data.getD 1 0 = 0x04) := by
    rintro ⟨h1, h2, h3⟩
    rcases h with h | h | h
    · exact h h1
    · exact h h2
    · exact h h3
  unfold vxe_raw_event
  exact if_neg hn

/-- C2: a frame that fails the check (length other than 17, or byte 0 other
than 0x08, or byte 1 other than 0x04) makes `vxe_raw_event` return 0 and leave
the whole state, so also capacity, status and voltage, as it was. -/
theorem vxe_raw_event_ignores (k : Kernel) (data : List u8)
    (h : data.length ≠ 17 ∨ data.getD 0 0 ≠ 0x08 ∨ data.getD 1 0 ≠ 0x04) :
    vxe_raw_event k data = .ok (0, k) :=
  raw_event_nomatch k data h

/-- Witness for C2: a 17-byte frame starting `08 05` leaves the bound sample
device unchanged. -/
theorem vxe_raw_event_ignores_witness :
    (sample_other_frame.length ≠ 17 ∨ sample_other_frame.getD 0 0 ≠ 0x08
      ∨ sample_other_frame.getD 1 0 ≠ 0x04) ∧
    vxe_raw_event sample_bound sample_other_frame = .ok (0, sample_bound) :=
  ⟨Or.inr (Or.inr (by decide)),
   vxe_raw_event_ignores sample_bound sample_other_frame (Or.inr (Or.inr (by decide)))⟩

/-! ## Status Publisher -/

theorem wrap32_millivolts (v : Int) (hlo : 0 ≤ v) (hhi : v ≤ 65535) :
    wrap32 (v * 1000) = v * 1000 := by
  unfold wrap32
  omega

/-- C4: with a cached millivolt value `v` in `[0, 65535]`, the voltage query
returns 0 and reports exactly `v * 1000`; the product stays below `2^31`, so the
32-bit multiplication does not overflow. -/
theorem voltage_now_microvolts (k : Kernel) (psy : power_supply) (a : Ptr) (m : vxe_mouse)
    (val : power_supply_propval)
    (hpsy : psy.drv_data = some a) (hlive : k.load (some a) = .ok m)
    (hlo : 0 ≤ m.battery_voltage) (hhi : m.battery_voltage ≤ 65535) :
    vxe_power_supply_get_property k psy .VOLTAGE_NOW val
        = .ok (0, .intval (m.battery_voltage * 1000), k) ∧
      0 ≤ m.battery_voltage * 1000 ∧ m.battery_voltage * 1000 ≤ 65535000 ∧
      (65535000 : Int) < 2 ^ 31 := by
  refine ⟨?_, by omega, by omega, by norm_num⟩
  simp only [vxe_power_supply_get_property, hpsy, hlive]
  rw [wrap32_millivolts _ hlo hhi]

/-- Witness for C4: 3000 mV cached on the sample device is reported as
3,000,000 µV. -/
theorem voltage_now_microvolts_witness :
    vxe_power_supply_get_property sample_telemetry sample_psy .VOLTAGE_NOW (.intval 0)
        = .ok (0, .intval (3000 * 1000), sample_telemetry) ∧
      (0 : Int) ≤ 3000 * 1000 ∧ (3000 : Int) * 1000 ≤ 65535000 ∧ (65535000 : Int) < 2 ^ 31 :=
  voltage_now_microvolts sample_telemetry sample_psy 0
    { sample_state with battery_capacity := 50, battery_status := 1, battery_voltage := 3000 }
    (.intval 0) rfl rfl (by decide) (by decide)

/-- C6: with a Device State present, `vxe_power_supply_get_property` returns
`-EINVAL` exactly for the tags outside `vxe_power_supply_props`, returns 0 for
each of the eight tags of that table, reports the raw cached percentage for both
capacity and capacity_level, and returns the state it was given. -/
theorem get_property_tags (k : Kernel) (psy : power_supply) (a : Ptr) (m : vxe_mouse)
    (psp : power_supply_property) (val : power_supply_propval)
    (hpsy : psy.drv_data = some a) (hlive : k.load (some a) = .ok m) :
    ∃ ret val', vxe_power_supply_get_property k psy psp val = .ok (ret, val', k) ∧
      (ret = -EINVAL ↔ psp ∉ vxe_power_supply_props) ∧
      (psp ∈ vxe_power_supply_props → ret = 0) ∧
      (psp = .CAPACITY ∨ psp = .CAPACITY_LEVEL → val' = .intval m.battery_capacity) := by
  cases psp <;>
    simp [vxe_power_supply_get_property, hpsy, hlive, vxe_power_supply_props, EINVAL]
  all_goals exact ⟨0, _, ⟨rfl, rfl⟩, by decide, rfl, rfl⟩

/-- Witness for C6: the capacity query on the sample device. -/
theorem get_property_tags_witness :
    ∃ ret val', vxe_power_supply_get_property sample_telemetry sample_psy .CAPACITY (.intval 0)
        = .ok (ret, val', sample_telemetry) ∧
      (ret = -EINVAL ↔ power_supply_property.CAPACITY ∉ vxe_power_supply_props) ∧
      (power_supply_property.CAPACITY ∈ vxe_power_supply_props → ret = 0) ∧
      (power_supply_property.CAPACITY = .CAPACITY
          ∨ power_supply_property.CAPACITY = .CAPACITY_LEVEL → val' = .intval 50) :=
  get_property_tags sample_telemetry sample_psy 0
    { sample_state with battery_capacity := 50, battery_status := 1, battery_voltage := 3000 }
    .CAPACITY (.intval 0) rfl rfl

/-! ## Bind -/

theorem load_store_lt (k : Kernel) (a : Ptr) (m' : vxe_mouse) (h : a < k.heap.length) :
    (k.store a m').load (some a) = .ok m' := by
  simp [Kernel.load, Kernel.store, List.getElem?_set_self, h]

theorem vxe_probe_bound (k0 : Kernel) (id : hid_device_id) (env : Env) (t0 : Nat)
    (hif : k0.hdev.bInterfaceNumber = TARGET_INTERFACE)
    (hret : (vxe_probe k0 id env t0).1 = 0) :
    (vxe_probe k0 id env t0).2.hdev.driver_data = some k0.heap.length ∧
    (vxe_probe k0 id env t0).2.load (some k0.heap.length) = .ok
      { battery_poll_timer := { pending := true, expires := ULONG (t0 + 100) }
        battery_request_work := { queued := 0, running := 0 }
        psy_name := psy_name_fmt id TARGET_INTERFACE
        power_supply := some (psy_name_fmt id TARGET_INTERFACE)
        battery_capacity := -1
        battery_status := POWER_SUPPLY_STATUS_UNKNOWN
        battery_voltage := 0 } ∧
    ({ name := psy_name_fmt id TARGET_INTERFACE
       properties := vxe_power_supply_props
       drv_data := some k0.heap.length } : power_supply) ∈ (vxe_probe k0 id env t0).2.registry ∧
    (vxe_probe k0 id env t0).2.hdev.hw_started = true := by
  unfold vxe_probe at hret ⊢
  simp only [hif] at hret ⊢
  by_cases h1 : env.hid_parse = 0
  · by_cases h2 : env.hid_hw_start = 0
    · by_cases h3 : env.kzalloc = true
      · by_cases h4 : env.devm_kzalloc = true
        · by_cases h5 : IS_ERR env.devm_power_supply_register = true
          · exfalso
            simp [h1, h2, h3, h4, h5] at hret
            simp [IS_ERR] at h5
            omega
          · simp [h1, h2, h3, h4, h5, Kernel.load, Kernel.store, hid_set_drvdata,
              mod_timer, msecs_to_jiffies, vxe_mouse.zeroed]
        · exfalso
          simp [h1, h2, h3, h4, ENOMEM] at hret
      · exfalso
        simp [h1, h2, h3, ENOMEM] at hret
    · exfalso
      simp [h1, h2] at hret
  · exfalso
    simp [h1] at hret

theorem ingest_ignores (k : Kernel) (frames : List (List u8))
    (h : ∀ f ∈ frames, f.length ≠ 17 ∨ f.getD 0 0 ≠ 0x08 ∨ f.getD 1 0 ≠ 0x04) :
    ingest k frames = .ok k := by
  induction frames with
  | nil => rfl
  | cons f fs ih =>
    have hf := h f (List.mem_cons_self f fs)
    have hfs : ∀ g ∈ fs, g.length ≠ 17 ∨ g.getD 0 0 ≠ 0x08 ∨ g.getD 1 0 ≠ 0x04 :=
      fun g hg => h g (List.mem_cons_of_mem f hg)
    simp only [ingest, raw_event_nomatch k f hf]
    exact ih hfs

/-- C5: after a successful bind on the telemetry interface and any sequence of
frames none of which is a 17-byte `08 04` frame, the registry entry created by
the bind reports capacity -1, status unknown and voltage 0. -/
theorem unknown_until_telemetry (k0 : Kernel) (id : hid_device_id) (env : Env) (t0 : Nat)
    (frames : List (List u8))
    (hif : k0.hdev.bInterfaceNumber = TARGET_INTERFACE)
    (hret : (vxe_probe k0 id env t0).1 = 0)
    (hframes : ∀ f ∈ frames, f.length ≠ 17 ∨ f.getD 0 0 ≠ 0x08 ∨ f.getD 1 0 ≠ 0x04) :
    ∃ k psy, ingest (vxe_probe k0 id env t0).2 frames = .ok k ∧
      psy ∈ k.registry ∧ psy.name = psy_name_fmt id TARGET_INTERFACE ∧
      psy.drv_data = k.hdev.driver_data ∧
      ∀ val,
        vxe_power_supply_get_property k psy .CAPACITY val = .ok (0, .intval (-1), k) ∧
        vxe_power_supply_get_property k psy .STATUS val
          = .ok (0, .intval POWER_SUPPLY_STATUS_UNKNOWN, k) ∧
        vxe_power_supply_get_property k psy .VOLTAGE_NOW val = .ok (0, .intval 0, k) := by
  obtain ⟨hdrv, hload, hmem, _⟩ := vxe_probe_bound k0 id env t0 hif hret
  refine ⟨_, _, ingest_ignores _ frames hframes, hmem, rfl, hdrv.symm, ?_⟩
  intro val
  simp [vxe_power_supply_get_property, hload, wrap32]

/-- Witness for C5: the sample device, bound and then fed a frame with a wrong
second byte and an empty frame. -/
theorem unknown_until_telemetry_witness :
    ∃ k psy, ingest (vxe_probe sample_kernel dongle env_ok 0).2 [sample_other_frame, []] = .ok k ∧
      psy ∈ k.registry ∧ psy.name = psy_name_fmt dongle TARGET_INTERFACE ∧
      psy.drv_data = k.hdev.driver_data ∧
      ∀ val,
        vxe_power_supply_get_property k psy .CAPACITY val = .ok (0, .intval (-1), k) ∧
        vxe_power_supply_get_property k psy .STATUS val
          = .ok (0, .intval POWER_SUPPLY_STATUS_UNKNOWN, k) ∧
        vxe_power_supply_get_property k psy .VOLTAGE_NOW val = .ok (0, .intval 0, k) :=
  unknown_until_telemetry sample_kernel dongle env_ok 0 [sample_other_frame, []] rfl rfl
    (by decide)

/-! ## Request Dispatcher -/

theorem work_handler_submits (k : Kernel) (a : Ptr) (m : vxe_mouse)
    (r : hid_report) (rest : List hid_report) (f : hid_field) (fs : List hid_field)
    (hlive : k.load (some a) = .ok m)
    (hlist : k.hdev.report_list = r :: rest) (hid : r.id = REPORT_ID)
    (hfield : r.field = f :: fs) (hcount : 16 ≤ f.report_count)
    (hvalue : f.report_count ≤ f.value.length) :
    vxe_battery_work_handler k a = .ok
      { k with
        hdev := { k.hdev with
          report_list :=
            { r with field := { f with value := (f.value.set 0 0x04).set 15 0x49 } :: fs }
              :: rest }
        requests := k.requests ++
          [{ report :=
               { r with field := { f with value := (f.value.set 0 0x04).set 15 0x49 } :: fs }
             reqtype := HID_REQ_SET_REPORT }] } := by
  have h1 : ¬ f.report_count < 16 := by omega
  have h2 : ¬ f.value.length ≤ 15 := by omega
  simp [vxe_battery_work_handler, hlive, hlist, hid, hfield, h1, h2, hid_hw_request]

/-- C3 (evaluation at the failing input): on a report that passes the checks
but whose field holds 7 in value 1, `vxe_battery_work_handler` submits
`04 07 00 .. 00 49`, not `04 00 .. 00 49`: it writes values 0 and 15 only. -/
theorem work_handler_keeps_stale_values :
    ∃ k, vxe_battery_work_handler stale_bound 0 = .ok k ∧
      submitted_payloads k = [[0x04, 7, 0, 0, 0, 0, 0, 0, 0, 0, 0, 0, 0, 0, 0, 0x49]] ∧
      submitted_payloads k ≠ [battery_request_payload] :=
  ⟨_, rfl, rfl, by decide⟩

/-- The checks of the Request Dispatcher that the code makes: when the
output-report list is empty, or the first report's id is not 0x08, or its first
field exists and holds fewer than 16 values, `vxe_battery_work_handler` returns
the state unchanged (no value written, no request submitted); when the first
report has id 0x08 and a first field of at least 16 values it appends exactly
one SET_REPORT request, for that report. -/
theorem work_handler_checks (k : Kernel) (a : Ptr) (m : vxe_mouse)
    (hlive : k.load (some a) = .ok m) :
    ((k.hdev.report_list = [] ∨
        ∃ r rest, k.hdev.report_list = r :: rest ∧
          (r.id ≠ REPORT_ID ∨ ∃ f fs, r.field = f :: fs ∧ f.report_count < 16)) →
      vxe_battery_work_handler k a = .ok k) ∧
    (∀ r rest f fs, k.hdev.report_list = r :: rest → r.id = REPORT_ID →
      r.field = f :: fs → 16 ≤ f.report_count → f.report_count ≤ f.value.length →
      ∃ k' r', vxe_battery_work_handler k a = .ok k' ∧
        k'.requests = k.requests ++ [{ report := r', reqtype := HID_REQ_SET_REPORT }] ∧
        r'.id = REPORT_ID ∧ k'.hdev.report_list = r' :: rest) := by
  constructor
  · rintro (hnil | ⟨r, rest, hlist, hbad⟩)
    · simp [vxe_battery_work_handler, hlive, hnil]
    · by_cases hid : r.id = REPORT_ID
      · rcases hbad with hne | ⟨f, fs, hfield, hlt⟩
        · exact absurd hid hne
        · simp [vxe_battery_work_handler, hlive, hlist, hid, hfield, hlt]
      · simp [vxe_battery_work_handler, hlive, hlist, hid]
  · intro r rest f fs hlist hid hfield hcount hvalue
    exact ⟨_, _, work_handler_submits k a m r rest f fs hlive hlist hid hfield hcount hvalue,
      rfl, hid, rfl⟩

/-- The checks at work: the bound sample device, whose output report passes
them, gets one request submitted; the same device without output reports is
left unchanged. -/
theorem work_handler_checks_sample :
    (∃ k' r', vxe_battery_work_handler sample_bound 0 = .ok k' ∧
        k'.requests = sample_bound.requests ++ [{ report := r', reqtype := HID_REQ_SET_REPORT }] ∧
        r'.id = REPORT_ID ∧ k'.hdev.report_list = r' :: []) ∧
    vxe_battery_work_handler bare_bound 0 = .ok bare_bound :=
  ⟨(work_handler_checks sample_bound 0 sample_state sample_bound_load).2
      sample_report [] { report_count := 16, value := List.replicate 16 0 } []
      rfl rfl rfl (by decide) (by decide),
   (work_handler_checks bare_bound 0 sample_state rfl).1 (Or.inl rfl)⟩

/-- C7 (evaluation at the failing input): on the bound sample device whose
output report has id 0x08 and no field, so that its first field holds no value
at all, `vxe_battery_work_handler` reads `report->field[0]->report_count`
through the NULL `field[0]`: it crashes instead of returning with the state
unchanged. -/
theorem work_handler_null_field :
    fieldless_bound.hdev.report_list = [{ id := REPORT_ID, field := [] }] ∧
      fieldless_bound.load (some 0) = .ok sample_state ∧
      vxe_battery_work_handler fieldless_bound 0 = .error .null_deref ∧
      vxe_battery_work_handler fieldless_bound 0 ≠ .ok fieldless_bound := by
  refine ⟨rfl, rfl, rfl, ?_⟩
  intro h
  have h2 : vxe_battery_work_handler fieldless_bound 0 = .error .null_deref := rfl
  rw [h2] at h
  cases h

/-! ## Poll Scheduler -/

theorem load_congr (k1 k2 : Kernel) (p : Option Ptr) (h : k1.heap = k2.heap) :
    k1.load p = k2.load p := by
  unfold Kernel.load
  rw [h]

theorem store_store (k : Kernel) (a : Ptr) (m1 m2 : vxe_mouse) :
    (k.store a m1).store a m2 = k.store a m2 := by
  simp [Kernel.store, List.set_set]

theorem work_handler_frame (k k' : Kernel) (a : Ptr)
    (h : vxe_battery_work_handler k a = .ok k') :
    k'.heap = k.heap ∧ k'.hdev.driver_data = k.hdev.driver_data := by
  unfold vxe_battery_work_handler at h
  repeat' split at h
  all_goals (cases h <;> exact ⟨rfl, rfl⟩)

theorem schedule_work_running (w : work_struct) : (schedule_work w).1.running = w.running := by
  unfold schedule_work
  split <;> rfl

theorem schedule_work_queued (w : work_struct) :
    (schedule_work w).1.queued = (if w.queued = 0 then w.queued + 1 else w.queued) := by
  unfold schedule_work
  split <;> rfl

theorem schedule_work_queued_one (w : work_struct) (h : w.queued ≤ 1) :
    (schedule_work w).1.queued = 1 := by
  rw [schedule_work_queued]
  split <;> omega

theorem step_timer_fire (k k' : Kernel) (a : Ptr) (m : vxe_mouse) (now : Nat)
    (hdrv : k.hdev.driver_data = some a) (hload : k.load (some a) = .ok m)
    (h : step k (.timer_fire now) = some k') :
    k' = k.store a
      { m with
        battery_request_work := (schedule_work m.battery_request_work).1
        battery_poll_timer :=
          { pending := true, expires := ULONG (now + BATTERY_POLL_INTERVAL_MS) } } := by
  unfold step at h
  simp only [hdrv, hload] at h
  split at h
  · simp only [vxe_request_battery_status, load_store k a m _ hload, store_store, mod_timer,
      msecs_to_jiffies] at h
    cases h
    rfl
  · cases h

theorem step_inv (k k' : Kernel) (a : Ptr) (e : Event)
    (hinv : WorkInv a k) (h : step k e = some k') : WorkInv a k' := by
  obtain ⟨hdrv, m, hload, hq, hr⟩ := hinv
  cases e with
  | timer_fire now =>
    rw [step_timer_fire k k' a m now hdrv hload h]
    refine ⟨hdrv, _, load_store k a m _ hload, ?_, ?_⟩
    · show (schedule_work m.battery_request_work).1.queued ≤ 1
      rw [schedule_work_queued_one _ hq]
    · show (schedule_work m.battery_request_work).1.running ≤ 1
      rw [schedule_work_running]
      exact hr
  | work_start =>
    unfold step at h
    simp only [hdrv, hload] at h
    split at h
    · rename_i hc
      cases h
      refine ⟨hdrv, _, load_store k a m _ hload, ?_, ?_⟩
      · show m.battery_request_work.queued - 1 ≤ 1
        omega
      · show m.battery_request_work.running + 1 ≤ 1
        omega
    · cases h
  | work_complete =>
    unfold step at h
    simp only [hdrv, hload] at h
    split at h
    · split at h
      · cases h
      · rename_i k2 hk2
        cases h
        obtain ⟨hheap, hdrv2⟩ := work_handler_frame k k2 a hk2
        have hload2 : k2.load (some a) = .ok m := by
          rw [load_congr k2 k (some a) hheap]
          exact hload
        refine ⟨hdrv2.trans hdrv, _, load_store k2 a m _ hload2, hq, ?_⟩
        show m.battery_request_work.running - 1 ≤ 1
        omega
    · cases h

theorem run_inv (es : List Event) (k k' : Kernel) (a : Ptr)
    (hinv : WorkInv a k) (h : run k es = some k') : WorkInv a k' := by
  induction es generalizing k with
  | nil =>
    cases h
    exact hinv
  | cons e es ih =>
    unfold run at h
    split at h
    · cases h
    · rename_i k1 hk1
      exact ih k1 (step_inv k k1 a e hinv hk1) h

theorem armed_due (now ms d : Nat) (hms : ms < 9223372036854775808)
    (hd : d < 9223372036854775808) :
    time_after_eq (now + d) (ULONG (now + ms)) = true ↔ ms ≤ d := by
  unfold time_after_eq ULONG
  rw [decide_eq_true_eq]
  omega

/-- C8 (amended): a successful bind at time `t0` leaves the timer armed for
`t0 + 100` and no work queued.  In every state reached from there by timer
fires, work starts and work completions, at most one dispatcher invocation is
queued and at most one is executing, and every timer fire leaves exactly one
invocation queued (it queues one unless one is queued already), leaves the
executing one alone and re-arms the timer for `now + 5000`.  The expiries are
`unsigned long` sums, so they wrap modulo `2^64`; in wrapping time the timer is
due `d` ms later exactly when `d` has reached the delay. -/
theorem poll_scheduler_single_slot (k0 : Kernel) (id : hid_device_id) (env : Env) (t0 : Nat)
    (hif : k0.hdev.bInterfaceNumber = TARGET_INTERFACE)
    (hret : (vxe_probe k0 id env t0).1 = 0) :
    ∃ a m0, (vxe_probe k0 id env t0).2.hdev.driver_data = some a ∧
      (vxe_probe k0 id env t0).2.load (some a) = .ok m0 ∧
      m0.battery_poll_timer = { pending := true, expires := ULONG (t0 + 100) } ∧
      (∀ d, d < 9223372036854775808 →
        (time_after_eq (t0 + d) m0.battery_poll_timer.expires = true ↔ 100 ≤ d)) ∧
      m0.battery_request_work = { queued := 0, running := 0 } ∧
      ∀ k, Reachable (vxe_probe k0 id env t0).2 k →
        ∃ m, k.load (some a) = .ok m ∧
          m.battery_request_work.queued ≤ 1 ∧ m.battery_request_work.running ≤ 1 ∧
          ∀ now k', step k (.timer_fire now) = some k' →
            ∃ m', k'.load (some a) = .ok m' ∧
              m'.battery_request_work.queued
                = (if m.battery_request_work.queued = 0 then m.battery_request_work.queued + 1
                   else m.battery_request_work.queued) ∧
              m'.battery_request_work.queued = 1 ∧
              m'.battery_request_work.running = m.battery_request_work.running ∧
              m'.battery_poll_timer
                = { pending := true, expires := ULONG (now + BATTERY_POLL_INTERVAL_MS) } ∧
              (∀ d, d < 9223372036854775808 →
                (time_after_eq (now + d) m'.battery_poll_timer.expires = true
                  ↔ BATTERY_POLL_INTERVAL_MS ≤ d)) := by
  obtain ⟨hdrv, hload, _, _⟩ := vxe_probe_bound k0 id env t0 hif hret
  refine ⟨_, _, hdrv, hload, rfl, ?_, rfl, ?_⟩
  · intro d hd
    exact armed_due t0 100 d (by norm_num) hd
  rintro k ⟨es, hes⟩
  have hinv0 : WorkInv k0.heap.length (vxe_probe k0 id env t0).2 :=
    ⟨hdrv, _, hload, Nat.zero_le 1, Nat.zero_le 1⟩
  obtain ⟨hdrvk, m, hloadk, hq, hr⟩ := run_inv es _ k _ hinv0 hes
  refine ⟨m, hloadk, hq, hr, ?_⟩
  intro now k' hstep
  rw [step_timer_fire k k' _ m now hdrvk hloadk hstep]
  refine ⟨_, load_store k _ m _ hloadk, schedule_work_queued _,
    schedule_work_queued_one _ hq, schedule_work_running _, rfl, ?_⟩
  intro d hd
  exact armed_due now BATTERY_POLL_INTERVAL_MS d (by norm_num [BATTERY_POLL_INTERVAL_MS]) hd

/-- Witness for C8 (amended): the sample device bound at time 0. -/
theorem poll_scheduler_single_slot_witness :
    ∃ a m0, (vxe_probe sample_kernel dongle env_ok 0).2.hdev.driver_data = some a ∧
      (vxe_probe sample_kernel dongle env_ok 0).2.load (some a) = .ok m0 ∧
      m0.battery_poll_timer = { pending := true, expires := ULONG (0 + 100) } ∧
      (∀ d, d < 9223372036854775808 →
        (time_after_eq (0 + d) m0.battery_poll_timer.expires = true ↔ 100 ≤ d)) ∧
      m0.battery_request_work = { queued := 0, running := 0 } ∧
      ∀ k, Reachable (vxe_probe sample_kernel dongle env_ok 0).2 k →
        ∃ m, k.load (some a) = .ok m ∧
          m.battery_request_work.queued ≤ 1 ∧ m.battery_request_work.running ≤ 1 ∧
          ∀ now k', step k (.timer_fire now) = some k' →
            ∃ m', k'.load (some a) = .ok m' ∧
              m'.battery_request_work.queued
                = (if m.battery_request_work.queued = 0 then m.battery_request_work.queued + 1
                   else m.battery_request_work.queued) ∧
              m'.battery_request_work.queued = 1 ∧
              m'.battery_request_work.running = m.battery_request_work.running ∧
              m'.battery_poll_timer
                = { pending := true, expires := ULONG (now + BATTERY_POLL_INTERVAL_MS) } ∧
              (∀ d, d < 9223372036854775808 →
                (time_after_eq (now + d) m'.battery_poll_timer.expires = true
                  ↔ BATTERY_POLL_INTERVAL_MS ≤ d)) :=
  poll_scheduler_single_slot sample_kernel dongle env_ok 0 rfl rfl

/-- C8 (counterexample): from the sample device bound at time 0,
(1) after the timer fires at 100 and the work starts, the fire at 5100 queues a
second invocation while the first is still executing;
(2) after the timer fires at 100 and the work has not started, the fire at 5100
queues nothing: one invocation was queued before it and one is queued after. -/
theorem poll_scheduler_overlap :
    (∃ k k' m m', run sample_bound [.timer_fire 100, .work_start] = some k ∧
        step k (.timer_fire 5100) = some k' ∧
        k.load (some 0) = .ok m ∧ k'.load (some 0) = .ok m' ∧
        m.battery_request_work = { queued := 0, running := 1 } ∧
        m'.battery_request_work = { queued := 1, running := 1 }) ∧
    (∃ k k' m m', run sample_bound [.timer_fire 100] = some k ∧
        step k (.timer_fire 5100) = some k' ∧
        k.load (some 0) = .ok m ∧ k'.load (some 0) = .ok m' ∧
        m.battery_request_work = { queued := 1, running := 0 } ∧
        m'.battery_request_work = { queued := 1, running := 0 }) :=
  ⟨⟨_, _, _, _, rfl, rfl, rfl, rfl, rfl, rfl⟩, ⟨_, _, _, _, rfl, rfl, rfl, rfl, rfl, rfl⟩⟩

/-! ## Unbind -/

/-- C9 (evaluation at the failing input): unbinding the bound sample device,
`vxe_remove` stops the timer, cancels the work, stops the hardware and frees the
Device State, and unregisters nothing: when it returns, the registry still holds
the entry whose `drv_data` is the freed Device State, and a capacity query
through that entry reads freed memory.  The entry is unregistered only
afterwards, when the device-managed resources are released. -/
theorem vxe_remove_frees_registered_state :
    ∃ k k2, vxe_remove sample_bound = .ok k ∧
      k.calls = sample_bound.calls ++
        [Call.del_timer_sync, Call.cancel_work_sync, Call.hid_hw_stop, Call.kfree 0] ∧
      k.registry = [sample_psy] ∧
      k.load sample_psy.drv_data = .error .use_after_free ∧
      vxe_power_supply_get_property k sample_psy .CAPACITY (.intval 0)
        = .error .use_after_free ∧
      hid_device_remove sample_bound = .ok k2 ∧
      k2.calls = k.calls ++ [Call.power_supply_unregister sample_psy.name] ∧
      k2.registry = [] :=
  ⟨_, _, rfl, rfl, rfl, rfl, rfl, rfl, rfl, rfl⟩

/-- C10 (evaluation at the failing input): when `devm_kzalloc` of the
descriptor fails, `vxe_probe` returns `-ENOMEM` and stops the hardware, but the
Device State it allocated stays allocated and stays the device's driver data;
it is still allocated after the bus has cleaned up the failed bind.  The
registration-failure path does free it. -/
theorem vxe_probe_leaks_on_desc_failure :
    ∃ k m, vxe_probe sample_kernel dongle { env_ok with devm_kzalloc := false } 0
        = (-ENOMEM, k) ∧
      k.hdev.hw_started = false ∧
      k.calls = [Call.hid_hw_start, Call.kzalloc 0, Call.hid_hw_stop] ∧
      k.hdev.driver_data = some 0 ∧
      k.load (some 0) = .ok m ∧
      (hid_device_probe sample_kernel dongle { env_ok with devm_kzalloc := false } 0).2.heap
        = [some m] ∧
      (vxe_probe sample_kernel dongle { env_ok with devm_power_supply_register := -ENOMEM } 0).2.heap
        = [none] :=
  ⟨_, _, rfl, rfl, rfl, rfl, rfl, rfl, rfl⟩

/-! ## Interfaces without a Device State -/

theorem vxe_probe_other_interface (k0 : Kernel) (id : hid_device_id) (env : Env) (t0 : Nat)
    (hif : k0.hdev.bInterfaceNumber ≠ TARGET_INTERFACE)
    (hparse : env.hid_parse = 0) (hstart : env.hid_hw_start = 0) :
    (vxe_probe k0 id env t0).1 = 0 ∧
      (vxe_probe k0 id env t0).2.hdev.driver_data = k0.hdev.driver_data ∧
      (vxe_probe k0 id env t0).2.heap = k0.heap ∧
      (vxe_probe k0 id env t0).2.hdev.hw_started = true := by
  simp [vxe_probe, hparse, hstart, hif]

theorem raw_event_null_deref (k : Kernel) (data : List u8)
    (hsize : data.length = 17) (h0 : data.getD 0 0 = 0x08) (h1 : data.getD 1 0 = 0x04)
    (hdrv : k.hdev.driver_data = none) :
    vxe_raw_event k data = .error .null_deref := by
  simp only [vxe_raw_event, hsize, h0, h1, hdrv]
  simp

/-- C11 (evaluation at the failing input): `vxe_probe` on interface 0 of the
dongle returns 0 without creating or associating a Device State, and the
17-byte telemetry frame `08 04 ..` delivered there makes `vxe_raw_event` write
through the NULL driver data pointer instead of returning 0.  A frame that fails
the check is handled (returns 0, state unchanged), and `vxe_remove` on the same
device tests the pointer and returns. -/
theorem vxe_raw_event_null_on_other_interface :
    ∃ k, vxe_probe sample_other_interface dongle env_ok 0 = (0, k) ∧
      k.hdev.driver_data = none ∧
      k.heap = [] ∧
      vxe_raw_event k sample_frame = .error .null_deref ∧
      vxe_raw_event k sample_other_frame = .ok (0, k) ∧
      vxe_remove k = .ok (hid_hw_stop k) :=
  ⟨_, rfl, rfl, rfl,
    raw_event_null_deref _ sample_frame (by decide) (by decide) (by decide) rfl, rfl, rfl⟩

end VxeR1
